import Mathlib

/-!
Shallow embedding of the Aave polling bot (src/aave.py) and verification of
its specified behaviour.

The script performs four HTTP/JSON operations (balance fetch, liquidity
fetch, deposit submission, borrow submission) and a two-gate decision
function, driven by an unbounded sleep loop.  We model JSON values as an
inductive type with Python truthiness, each network interaction as an
abstract outcome (transport error, or a response with a status-check flag
and an optionally parseable JSON body), and the decision engine as a pure
function from those outcomes to the list of outbound requests it issues.
The status-check flag models aiohttp raise_for_status: true means the call
did not raise (a successful status), false means it raised.
-/

/-- JSON values as parsed by the script; numbers are modelled as integers. -/
inductive Json where
  | null : Json
  | bool (b : Bool) : Json
  | num (n : Int) : Json
  | str (s : String) : Json
  | arr (elems : List Json) : Json
  | obj (fields : List (String × Json)) : Json

/-- Python truthiness of a JSON value: None, False, 0, the empty string,
the empty list and the empty dict are falsy, everything else truthy. -/
def Json.truthy : Json → Bool
  | .null => false
  | .bool b => b
  | .num n => n != 0
  | .str s => s != ""
  | .arr elems => !elems.isEmpty
  | .obj fields => !fields.isEmpty

/-- Lookup of a key in the field list of a JSON object. -/
def lookupField : List (String × Json) → String → Option Json
  | [], _ => none
  | (k, v) :: rest, key => if k = key then some v else lookupField rest key

/-- Python subscripting data[key] on a JSON value: yields the field when the
value is a dict containing the key; otherwise (KeyError or TypeError) it
raises, which we model as none. -/
def Json.getKey : Json → String → Option Json
  | .obj fields, key => lookupField fields key
  | _, _ => none

/-- Python equality of a JSON value against a string literal: true exactly
when the value is that string; comparisons across types are False. -/
def Json.eqStr : Json → String → Bool
  | .str s, t => s = t
  | _, _ => false

/-- Outcome of one HTTP call: a transport-level exception, or a response
with statusOk recording whether raise_for_status passed, and a body that is
some parsed JSON payload or none when reading/parsing the body raised. -/
inductive HttpResult where
  | err : HttpResult
  | resp (statusOk : Bool) (body : Option Json) : HttpResult

/-- Python comparison value >= threshold where threshold is an int: defined
for numbers and booleans (True counts as 1, False as 0); on any other type
the comparison raises TypeError, modelled as none. -/
def pyGeInt : Json → Int → Option Bool
  | .num n, m => some (decide (m ≤ n))
  | .bool b, m => some (decide (m ≤ (if b then (1 : Int) else 0)))
  | _, _ => none

/- Configuration constants of the script (module-level in src/aave.py). -/

/-- Credential string sent in every outbound request body. -/
def private_key : String := "your_private_key_here"

/-- Amount the bot borrows. -/
def amount_to_borrow : Int := 1000

/-- Collateral amount for the borrow request. -/
def collateral_for_borrow : Int := 2000

/-- Asset borrowed. -/
def asset_to_borrow : String := "USDT"

/-- Loan period in days sent with the borrow request. -/
def loan_duration : Int := 30

/-- Amount the bot deposits. -/
def amount_to_deposit : Int := 5000

/-- Asset deposited, also the asset whose balance is fetched. -/
def asset_to_deposit : String := "DAI"

/-- check_balance from src/aave.py: GET balance_url/asset, raise_for_status,
parse the body, read the field balance and return it; every exception on
that path (transport error, error status, unparseable body, missing field,
non-dict body) is caught and the function returns 0.  The parameter
balanceOf gives the outcome of the GET for each asset. -/
def check_balance (balanceOf : String → HttpResult) (asset : String) : Json :=
  match balanceOf asset with
  | .err => .num 0
  | .resp statusOk body =>
    if statusOk then
      match body with
      | none => .num 0
      | some data =>
        match data.getKey "balance" with
        | some v => v
        | none => .num 0
    else .num 0

/-- get_liquidity from src/aave.py: GET liquidity_url, raise_for_status,
parse and return the JSON payload verbatim; on any exception return None. -/
def get_liquidity (r : HttpResult) : Option Json :=
  match r with
  | .err => none
  | .resp statusOk body => if statusOk then body else none

/-- Log outcome of a deposit or borrow submission: the success info line
with the transaction id, the error line with the message field of the body,
or the error line of the except-branch. -/
inductive LogEvent where
  | infoSuccess (txid : Json) : LogEvent
  | errorMessage (message : Json) : LogEvent
  | errorException : LogEvent

/-- True when the log outcome is one of the two error-level lines. -/
def LogEvent.isError : LogEvent → Bool
  | .infoSuccess _ => false
  | .errorMessage _ => true
  | .errorException => true

/-- deposit_assets from src/aave.py: POST the payload to deposit_url,
raise_for_status, parse the body; when the status field equals success log
the txid field, otherwise log the message field at error level; every
exception on that path (transport, error status, unparseable body, missing
field) is caught and logged at error level.  The function always returns
normally; r is the outcome of the POST. -/
def deposit_assets (k : String) (amount : Int) (asset : String)
    (r : HttpResult) : LogEvent :=
  match r with
  | .err => .errorException
  | .resp statusOk body =>
    if statusOk then
      match body with
      | none => .errorException
      | some data =>
        match data.getKey "status" with
        | none => .errorException
        | some st =>
          if st.eqStr "success" then
            match data.getKey "txid" with
            | some t => .infoSuccess t
            | none => .errorException
          else
            match data.getKey "message" with
            | some m => .errorMessage m
            | none => .errorException
    else .errorException

/-- borrow_assets from src/aave.py: POST the payload to borrow_url and
handle the response exactly as deposit_assets does, with the borrow-shaped
payload.  The function always returns normally; r is the POST outcome. -/
def borrow_assets (k : String) (amount : Int) (collateral : Int)
    (asset : String) (duration : Int) (r : HttpResult) : LogEvent :=
  match r with
  | .err => .errorException
  | .resp statusOk body =>
    if statusOk then
      match body with
      | none => .errorException
      | some data =>
        match data.getKey "status" with
        | none => .errorException
        | some st =>
          if st.eqStr "success" then
            match data.getKey "txid" with
            | some t => .infoSuccess t
            | none => .errorException
          else
            match data.getKey "message" with
            | some m => .errorMessage m
            | none => .errorException
    else .errorException

/-- Outbound requests the decision engine can issue, with the arguments of
the corresponding call in src/aave.py. -/
inductive BotAction where
  | deposit (k : String) (amount : Int) (asset : String) : BotAction
  | borrow (k : String) (amount : Int) (collateral : Int) (asset : String)
      (duration : Int) : BotAction
deriving DecidableEq

/-- True for a deposit request. -/
def BotAction.isDep : BotAction → Bool
  | .deposit .. => true
  | .borrow .. => false

/-- True for a borrow request. -/
def BotAction.isBor : BotAction → Bool
  | .deposit .. => false
  | .borrow .. => true

/-- Python condition liquidity and bal >= threshold: and short-circuits, so
when liquidity (an Option, None for a failed fetch) is absent or falsy the
comparison is never evaluated and the condition is False; otherwise the
comparison runs and may raise TypeError (none). -/
def gateCond (liquidity : Option Json) (bal : Json) (threshold : Int) :
    Option Bool :=
  match liquidity with
  | none => some false
  | some j => if j.truthy then pyGeInt bal threshold else some false

/-- make_decision from src/aave.py: fetch liquidity and the balance of
asset_to_deposit, then run two independent if-statements: deposit when
liquidity is truthy and balance >= amount_to_deposit, and borrow when
liquidity is truthy and balance >= collateral_for_borrow.  The result is
the list of requests issued, in program order; error means an uncaught
TypeError from a comparison against a non-numeric balance value. -/
def make_decision (liq : HttpResult) (balanceOf : String → HttpResult) :
    Except Unit (List BotAction) :=
  let liquidity := get_liquidity liq
  let available_balance := check_balance balanceOf asset_to_deposit
  match gateCond liquidity available_balance amount_to_deposit with
  | none => .error ()
  | some depGate =>
    let depActs : List BotAction :=
      if depGate then
        [.deposit private_key amount_to_deposit asset_to_deposit]
      else []
    match gateCond liquidity available_balance collateral_for_borrow with
    | none => .error ()
    | some borGate =>
      let borActs : List BotAction :=
        if borGate then
          [.borrow private_key amount_to_borrow collateral_for_borrow
            asset_to_borrow loan_duration]
        else []
      .ok (depActs ++ borActs)

/-- The deposit request make_decision issues when its deposit gate opens. -/
def depositAction : BotAction :=
  .deposit private_key amount_to_deposit asset_to_deposit

/-- The borrow request make_decision issues when its borrow gate opens. -/
def borrowAction : BotAction :=
  .borrow private_key amount_to_borrow collateral_for_borrow asset_to_borrow
    loan_duration

/-- True when the balance fetch failed: transport error, status check
raised, body unparseable, or body without a balance field.  On each of
these check_balance takes its except-branch (or default) and returns 0. -/
def balance_fetch_failed (r : HttpResult) : Bool :=
  match r with
  | .err => true
  | .resp statusOk body =>
    !statusOk ||
      (match body with
       | none => true
       | some data => (data.getKey "balance").isNone)

/-- True when the liquidity fetch failed: transport error, status check
raised, or body unparseable.  On each of these get_liquidity returns None. -/
def liquidity_fetch_failed (r : HttpResult) : Bool :=
  match r with
  | .err => true
  | .resp statusOk body => !statusOk || body.isNone

/-- True when a deposit or borrow submission did not succeed: transport
error, status check raised, body unparseable, or a body whose status field
is absent or holds any value other than the string success. -/
def response_not_success (r : HttpResult) : Bool :=
  match r with
  | .err => true
  | .resp statusOk body =>
    !statusOk ||
      match body with
      | none => true
      | some data =>
        match data.getKey "status" with
        | some st => !(st.eqStr "success")
        | none => true

/- The polling loop aave_crypto_bot: while True, await make_decision, then
await asyncio.sleep 60.  We model its execution as an infinite alternating
trace of events produced by a step function on a loop state. -/

/-- Position inside one iteration of the while-True body. -/
inductive LoopPhase where
  | deciding : LoopPhase
  | sleeping : LoopPhase
deriving DecidableEq

/-- State of the polling loop: the index of the current cycle and the
position inside the loop body. -/
structure LoopState where
  cycle : Nat
  phase : LoopPhase
deriving DecidableEq

/-- Observable events of the polling loop: one complete invocation of
make_decision for a cycle, or one sleep of the fixed interval. -/
inductive LoopEvent where
  | invoke (cycle : Nat) : LoopEvent
  | sleep (seconds : Nat) : LoopEvent
deriving DecidableEq

/-- One step of aave_crypto_bot: from the start of the body run
make_decision to completion, then perform the 60-second sleep and begin the
next cycle.  The loop has no exit: every state has a successor. -/
def loopStep : LoopState → LoopEvent × LoopState
  | ⟨n, .deciding⟩ => (.invoke n, ⟨n, .sleeping⟩)
  | ⟨n, .sleeping⟩ => (.sleep 60, ⟨n + 1, .deciding⟩)

/-- Loop state after k steps, starting at cycle 0 about to decide. -/
def loopStateAt : Nat → LoopState
  | 0 => ⟨0, .deciding⟩
  | k + 1 => (loopStep (loopStateAt k)).2

/-- The kth event of the (infinite, sequential) trace of aave_crypto_bot. -/
def aave_crypto_bot_event (k : Nat) : LoopEvent :=
  (loopStep (loopStateAt k)).1

/- Helper lemmas shared by the claim theorems. -/

/-- check_balance returns 0 on every failed fetch. -/
lemma check_balance_of_failed (balanceOf : String → HttpResult) (asset : String)
    (h : balance_fetch_failed (balanceOf asset) = true) :
    check_balance balanceOf asset = .num 0 := by
  unfold check_balance balance_fetch_failed at *
  cases hr : balanceOf asset with
  | err => rfl
  | resp statusOk body =>
    rw [hr] at h
    cases statusOk with
    | false => simp
    | true =>
      simp only [Bool.not_true, Bool.false_or] at h
      cases body with
      | none => simp
      | some data =>
        simp only at h
        simp [Option.isNone_iff_eq_none.mp h]

/-- get_liquidity returns None on every failed fetch. -/
lemma get_liquidity_of_failed (r : HttpResult)
    (h : liquidity_fetch_failed r = true) : get_liquidity r = none := by
  unfold get_liquidity liquidity_fetch_failed at *
  cases r with
  | err => rfl
  | resp statusOk body =>
    cases statusOk with
    | false => simp
    | true =>
      simp only [Bool.not_true, Bool.false_or] at h
      simp [Option.isNone_iff_eq_none.mp h]

/-- make_decision issues nothing when the liquidity fetch produced None. -/
lemma make_decision_of_liquidity_none (liq : HttpResult)
    (balanceOf : String → HttpResult) (h : get_liquidity liq = none) :
    make_decision liq balanceOf = .ok [] := by
  simp [make_decision, h, gateCond]

/-- make_decision issues nothing when the liquidity payload is falsy. -/
lemma make_decision_of_liquidity_falsy (liq : HttpResult)
    (balanceOf : String → HttpResult) (j : Json)
    (h : get_liquidity liq = some j) (ht : j.truthy = false) :
    make_decision liq balanceOf = .ok [] := by
  simp [make_decision, h, gateCond, ht]

/-- With truthy liquidity and a numeric balance, make_decision issues the
deposit exactly when the balance reaches amount_to_deposit and the borrow
exactly when it reaches collateral_for_borrow, deposit first. -/
lemma make_decision_of_num (liq : HttpResult)
    (balanceOf : String → HttpResult) (j : Json) (b : Int)
    (h : get_liquidity liq = some j) (ht : j.truthy = true)
    (hb : check_balance balanceOf asset_to_deposit = .num b) :
    make_decision liq balanceOf =
      .ok ((if amount_to_deposit ≤ b then [depositAction] else []) ++
        (if collateral_for_borrow ≤ b then [borrowAction] else [])) := by
  simp [make_decision, h, gateCond, ht, hb, pyGeInt, depositAction,
    borrowAction]

/-- make_decision reads only the deposit-asset balance response: any two
environments agreeing there produce the same result. -/
lemma make_decision_only_deposit_asset (liq : HttpResult)
    (bf bf2 : String → HttpResult)
    (h : bf2 asset_to_deposit = bf asset_to_deposit) :
    make_decision liq bf2 = make_decision liq bf := by
  unfold make_decision check_balance
  rw [h]

/-- Every cycle issues one of: nothing, the borrow alone, or the deposit
followed by the borrow (or raises on a non-numeric balance value). -/
lemma make_decision_cases (liq : HttpResult)
    (balanceOf : String → HttpResult) :
    make_decision liq balanceOf = .error () ∨
    make_decision liq balanceOf = .ok [] ∨
    make_decision liq balanceOf = .ok [borrowAction] ∨
    make_decision liq balanceOf = .ok [depositAction, borrowAction] := by
  cases hl : get_liquidity liq with
  | none =>
    exact Or.inr (Or.inl (make_decision_of_liquidity_none liq balanceOf hl))
  | some j =>
    cases ht : j.truthy with
    | false =>
      exact Or.inr (Or.inl
        (make_decision_of_liquidity_falsy liq balanceOf j hl ht))
    | true =>
      cases hb : check_balance balanceOf asset_to_deposit with
      | num b =>
        rw [make_decision_of_num liq balanceOf j b hl ht hb]
        by_cases hd : amount_to_deposit ≤ b
        · have hc : collateral_for_borrow ≤ b := by
            unfold amount_to_deposit at hd
            unfold collateral_for_borrow
            omega
          simp [hd, hc]
        · by_cases hc : collateral_for_borrow ≤ b
          · simp [hd, hc]
          · simp [hd, hc]
      | bool bb =>
        simp only [make_decision, hl, ht, hb, gateCond, pyGeInt]
        cases bb <;> simp [amount_to_deposit, collateral_for_borrow]
      | null => simp [make_decision, hl, ht, hb, gateCond, pyGeInt]
      | str s => simp [make_decision, hl, ht, hb, gateCond, pyGeInt]
      | arr elems => simp [make_decision, hl, ht, hb, gateCond, pyGeInt]
      | obj fields => simp [make_decision, hl, ht, hb, gateCond, pyGeInt]

/-- C1 (amended): in every cycle whose liquidity payload is truthy and
whose fetched deposit-asset balance b reaches amount_to_deposit, a deposit
request with exactly the configured amount and asset is issued; and in
every cycle whose liquidity is present and whose balance is below
amount_to_deposit, no deposit request is issued. -/
theorem deposit_gate_requires_truthy_liquidity (liq : HttpResult)
    (balanceOf : String → HttpResult) (j : Json) (b : Int)
    (hl : get_liquidity liq = some j)
    (hb : check_balance balanceOf asset_to_deposit = .num b) :
    (j.truthy = true → amount_to_deposit ≤ b →
      ∃ acts, make_decision liq balanceOf = .ok acts ∧
        BotAction.deposit private_key amount_to_deposit asset_to_deposit
          ∈ acts) ∧
    (b < amount_to_deposit →
      ∃ acts, make_decision liq balanceOf = .ok acts ∧
        ∀ a ∈ acts, a.isDep = false) := by
  constructor
  · intro ht hd
    refine ⟨_, make_decision_of_num liq balanceOf j b hl ht hb, ?_⟩
    simp [hd, depositAction]
  · intro hlt
    have hd : ¬ amount_to_deposit ≤ b := by omega
    cases ht : j.truthy with
    | false =>
      exact ⟨[], make_decision_of_liquidity_falsy liq balanceOf j hl ht,
        by simp⟩
    | true =>
      refine ⟨_, make_decision_of_num liq balanceOf j b hl ht hb, ?_⟩
      intro a ha
      simp only [hd, if_false] at ha
      by_cases hc : collateral_for_borrow ≤ b
      · simp [hc, borrowAction] at ha
        simp [ha, BotAction.isDep]
      · simp [hc] at ha

/-- C1 counterexample: the claim as stated fails on a present (non-null)
but falsy liquidity payload: with liquidity the empty object and balance
5000 = amount_to_deposit, no deposit request is issued. -/
theorem deposit_gate_nonnull_falsy_cex :
    get_liquidity (.resp true (some (.obj []))) = some (.obj []) ∧
    check_balance
      (fun _ => .resp true (some (.obj [("balance", .num 5000)])))
      asset_to_deposit = .num 5000 ∧
    make_decision (.resp true (some (.obj [])))
      (fun _ => .resp true (some (.obj [("balance", .num 5000)]))) =
      .ok [] := ⟨rfl, rfl, rfl⟩

/-- Witness for C1 at liquidity payload 7 and balance 5000. -/
theorem deposit_gate_requires_truthy_liquidity_witness :
    ∃ acts, make_decision (.resp true (some (.num 7)))
      (fun _ => .resp true (some (.obj [("balance", .num 5000)]))) =
      .ok acts ∧
      BotAction.deposit private_key amount_to_deposit asset_to_deposit
        ∈ acts :=
  (deposit_gate_requires_truthy_liquidity
    (.resp true (some (.num 7)))
    (fun _ => .resp true (some (.obj [("balance", .num 5000)])))
    (.num 7) 5000 rfl rfl).1 rfl (by decide)

/-- C2 (amended): in every cycle whose liquidity payload is truthy and
whose balance fetched for the deposit asset reaches collateral_for_borrow,
a borrow request with exactly the configured amount, collateral, asset and
duration is issued; and the decision depends only on the deposit-asset
balance response — environments that agree on asset_to_deposit give the
same result, whatever they answer for the collateral asset. -/
theorem borrow_gate_uses_deposit_asset_balance (liq : HttpResult)
    (balanceOf : String → HttpResult) (j : Json) (b : Int)
    (hl : get_liquidity liq = some j) (ht : j.truthy = true)
    (hb : check_balance balanceOf asset_to_deposit = .num b)
    (hc : collateral_for_borrow ≤ b) :
    (∃ acts, make_decision liq balanceOf = .ok acts ∧
      BotAction.borrow private_key amount_to_borrow collateral_for_borrow
        asset_to_borrow loan_duration ∈ acts) ∧
    (∀ bf2 : String → HttpResult,
      bf2 asset_to_deposit = balanceOf asset_to_deposit →
      make_decision liq bf2 = make_decision liq balanceOf) := by
  refine ⟨⟨_, make_decision_of_num liq balanceOf j b hl ht hb, ?_⟩,
    fun bf2 h2 => make_decision_only_deposit_asset liq balanceOf bf2 h2⟩
  by_cases hd : amount_to_deposit ≤ b <;> simp [hd, hc, borrowAction]

/-- C2 counterexample: the claim as stated fails on a present (non-null)
but falsy liquidity payload: with liquidity the empty string and balance
2000 = collateral_for_borrow, no borrow request is issued. -/
theorem borrow_gate_nonnull_falsy_cex :
    get_liquidity (.resp true (some (.str ""))) = some (.str "") ∧
    check_balance
      (fun _ => .resp true (some (.obj [("balance", .num 2000)])))
      asset_to_deposit = .num 2000 ∧
    make_decision (.resp true (some (.str "")))
      (fun _ => .resp true (some (.obj [("balance", .num 2000)]))) =
      .ok [] := ⟨rfl, rfl, rfl⟩

/-- Witness for C2 at liquidity payload 7 and balance 2000. -/
theorem borrow_gate_uses_deposit_asset_balance_witness :
    ∃ acts, make_decision (.resp true (some (.num 7)))
      (fun _ => .resp true (some (.obj [("balance", .num 2000)]))) =
      .ok acts ∧
      BotAction.borrow private_key amount_to_borrow collateral_for_borrow
        asset_to_borrow loan_duration ∈ acts :=
  (borrow_gate_uses_deposit_asset_balance
    (.resp true (some (.num 7)))
    (fun _ => .resp true (some (.obj [("balance", .num 2000)])))
    (.num 7) 2000 rfl rfl rfl (by decide)).1

/-- C3: the two gates are independent if-statements, not an else-if: a
cycle meeting both thresholds issues both requests, deposit then borrow;
and cycles issuing zero requests and exactly one request also exist. -/
theorem gates_are_independent (liq : HttpResult)
    (balanceOf : String → HttpResult) (j : Json) (b : Int)
    (hl : get_liquidity liq = some j) (ht : j.truthy = true)
    (hb : check_balance balanceOf asset_to_deposit = .num b)
    (hd : amount_to_deposit ≤ b) :
    make_decision liq balanceOf = .ok [depositAction, borrowAction] ∧
    make_decision .err (fun _ => .err) = .ok [] ∧
    make_decision (.resp true (some (.num 7)))
      (fun _ => .resp true (some (.obj [("balance", .num 3000)]))) =
      .ok [borrowAction] := by
  refine ⟨?_, rfl, rfl⟩
  rw [make_decision_of_num liq balanceOf j b hl ht hb]
  have hc : collateral_for_borrow ≤ b := by
    unfold amount_to_deposit at hd
    unfold collateral_for_borrow
    omega
  simp [hd, hc]

/-- Witness for C3 at liquidity payload 7 and balance 5000. -/
theorem gates_are_independent_witness :
    make_decision (.resp true (some (.num 7)))
      (fun _ => .resp true (some (.obj [("balance", .num 5000)]))) =
      .ok [depositAction, borrowAction] :=
  (gates_are_independent (.resp true (some (.num 7)))
    (fun _ => .resp true (some (.obj [("balance", .num 5000)])))
    (.num 7) 5000 rfl rfl rfl (by decide)).1

/-- C4: on every failed balance fetch — transport error, status-check
failure, unparseable body, or a body without a balance field —
check_balance returns exactly 0 and returns normally; a failed fetch is
indistinguishable from a genuine zero balance. -/
theorem check_balance_failure_returns_zero :
    (∀ (balanceOf : String → HttpResult) (asset : String),
      balance_fetch_failed (balanceOf asset) = true →
      check_balance balanceOf asset = .num 0) ∧
    check_balance (fun _ => .err) asset_to_deposit =
      check_balance (fun _ => .resp true (some (.obj [("balance", .num 0)])))
        asset_to_deposit :=
  ⟨check_balance_of_failed, rfl⟩

/-- Witness for C4 on a transport error, a status-check failure, an
unparseable body, and a body without a balance field. -/
theorem check_balance_failure_returns_zero_witness :
    check_balance (fun _ => .err) "DAI" = .num 0 ∧
    check_balance (fun _ => .resp false (some (.obj [("balance", .num 9)])))
      "DAI" = .num 0 ∧
    check_balance (fun _ => .resp true none) "DAI" = .num 0 ∧
    check_balance (fun _ => .resp true (some (.obj [("other", .num 9)])))
      "DAI" = .num 0 :=
  ⟨check_balance_failure_returns_zero.1 (fun _ => .err) "DAI" rfl,
   check_balance_failure_returns_zero.1
     (fun _ => .resp false (some (.obj [("balance", .num 9)]))) "DAI" rfl,
   check_balance_failure_returns_zero.1 (fun _ => .resp true none) "DAI" rfl,
   check_balance_failure_returns_zero.1
     (fun _ => .resp true (some (.obj [("other", .num 9)]))) "DAI" rfl⟩

/-- C5: on every failed liquidity fetch get_liquidity returns exactly None,
and make_decision then issues neither a deposit nor a borrow, whatever the
balance responses are. -/
theorem liquidity_failure_blocks_actions (liq : HttpResult)
    (h : liquidity_fetch_failed liq = true) :
    get_liquidity liq = none ∧
    ∀ balanceOf : String → HttpResult,
      make_decision liq balanceOf = .ok [] :=
  ⟨get_liquidity_of_failed liq h,
   fun balanceOf => make_decision_of_liquidity_none liq balanceOf
     (get_liquidity_of_failed liq h)⟩

/-- Witness for C5 on a transport error, with a balance of 9999. -/
theorem liquidity_failure_blocks_actions_witness :
    get_liquidity .err = none ∧
    make_decision .err
      (fun _ => .resp true (some (.obj [("balance", .num 9999)]))) =
      .ok [] :=
  ⟨(liquidity_failure_blocks_actions .err rfl).1,
   (liquidity_failure_blocks_actions .err rfl).2
     (fun _ => .resp true (some (.obj [("balance", .num 9999)])))⟩

/-- C6: every deposit or borrow submission whose response carries a status
other than success, and every transport error, status-check failure or
unparseable body on those requests, produces an error-level log and the
function returns normally (it is total and never propagates an exception). -/
theorem submit_failures_logged_not_raised (pk : String)
    (amountD : Int) (assetD : String) (amountB : Int) (collateral : Int)
    (assetB : String) (duration : Int) (r : HttpResult)
    (h : response_not_success r = true) :
    (deposit_assets pk amountD assetD r).isError = true ∧
    (borrow_assets pk amountB collateral assetB duration r).isError =
      true := by
  cases r with
  | err => exact ⟨rfl, rfl⟩
  | resp statusOk body =>
    cases statusOk with
    | false => exact ⟨rfl, rfl⟩
    | true =>
      simp only [response_not_success, Bool.not_true, Bool.false_or] at h
      cases body with
      | none => exact ⟨rfl, rfl⟩
      | some data =>
        simp only at h
        cases hst : data.getKey "status" with
        | none =>
          simp [deposit_assets, borrow_assets, hst, LogEvent.isError]
        | some st =>
          rw [hst] at h
          simp only [Bool.not_eq_true'] at h
          cases hm : data.getKey "message" with
          | none =>
            simp [deposit_assets, borrow_assets, hst, h, hm,
              LogEvent.isError]
          | some m =>
            simp [deposit_assets, borrow_assets, hst, h, hm,
              LogEvent.isError]

/-- Witness for C6 on a response whose status field is failed. -/
theorem submit_failures_logged_not_raised_witness :
    (deposit_assets "k" 5000 "DAI"
      (.resp true (some (.obj [("status", .str "failed"),
        ("message", .str "no")])))).isError = true ∧
    (borrow_assets "k" 1000 2000 "USDT" 30
      (.resp true (some (.obj [("status", .str "failed"),
        ("message", .str "no")])))).isError = true :=
  submit_failures_logged_not_raised "k" 5000 "DAI" 1000 2000 "USDT" 30
    (.resp true (some (.obj [("status", .str "failed"),
      ("message", .str "no")]))) rfl

/-- C8: a present but falsy liquidity payload (empty object, empty array,
zero, empty string, False or None in the body) closes both gates: no
request is issued, whatever the balance responses are. -/
theorem falsy_liquidity_blocks_actions (liq : HttpResult)
    (balanceOf : String → HttpResult) (j : Json)
    (hl : get_liquidity liq = some j) (ht : j.truthy = false) :
    make_decision liq balanceOf = .ok [] :=
  make_decision_of_liquidity_falsy liq balanceOf j hl ht

/-- Witness for C8 on the empty-array payload with balance 9999. -/
theorem falsy_liquidity_blocks_actions_witness :
    make_decision (.resp true (some (.arr [])))
      (fun _ => .resp true (some (.obj [("balance", .num 9999)]))) =
      .ok [] :=
  falsy_liquidity_blocks_actions (.resp true (some (.arr [])))
    (fun _ => .resp true (some (.obj [("balance", .num 9999)])))
    (.arr []) rfl rfl

/-- C9: when the balance fetch for the deposit asset fails (so
check_balance yields 0), no deposit and no borrow is issued in the cycle,
whatever the liquidity outcome, since both thresholds are positive. -/
theorem balance_failure_blocks_actions (liq : HttpResult)
    (balanceOf : String → HttpResult)
    (h : balance_fetch_failed (balanceOf asset_to_deposit) = true) :
    make_decision liq balanceOf = .ok [] := by
  have hb : check_balance balanceOf asset_to_deposit = .num 0 :=
    check_balance_of_failed balanceOf asset_to_deposit h
  cases hl : get_liquidity liq with
  | none => exact make_decision_of_liquidity_none liq balanceOf hl
  | some j =>
    cases ht : j.truthy with
    | false => exact make_decision_of_liquidity_falsy liq balanceOf j hl ht
    | true =>
      rw [make_decision_of_num liq balanceOf j 0 hl ht hb]
      simp [amount_to_deposit, collateral_for_borrow]

/-- Witness for C9 on a transport error of the balance fetch with truthy
liquidity. -/
theorem balance_failure_blocks_actions_witness :
    make_decision (.resp true (some (.num 7))) (fun _ => .err) = .ok [] :=
  balance_failure_blocks_actions (.resp true (some (.num 7)))
    (fun _ => .err) rfl

/-- C10: since amount_to_deposit exceeds collateral_for_borrow, every cycle
that issues the deposit also issues the borrow, and the deposit request
precedes the borrow request. -/
theorem deposit_implies_borrow_ordered (liq : HttpResult)
    (balanceOf : String → HttpResult) (acts : List BotAction)
    (h : make_decision liq balanceOf = .ok acts)
    (hd : depositAction ∈ acts) :
    acts = [depositAction, borrowAction] := by
  rcases make_decision_cases liq balanceOf with h0 | h0 | h0 | h0 <;>
      rw [h0] at h
  · exact absurd h (by simp)
  all_goals
    injection h with h
    subst h
  · exact absurd hd (by simp)
  · exact absurd hd (by decide)
  · rfl

/-- Witness for C10 at liquidity payload 7 and balance 6000. -/
theorem deposit_implies_borrow_ordered_witness :
    [depositAction, borrowAction] = [depositAction, borrowAction] :=
  deposit_implies_borrow_ordered (.resp true (some (.num 7)))
    (fun _ => .resp true (some (.obj [("balance", .num 6000)])))
    [depositAction, borrowAction] rfl (by decide)

/-- The loop state after k steps: the cycle index is k / 2, and the loop is
about to decide on even k and about to sleep on odd k. -/
lemma loopStateAt_char (k : Nat) :
    loopStateAt k =
      ⟨k / 2, if k % 2 = 0 then .deciding else .sleeping⟩ := by
  induction k with
  | zero => rfl
  | succ k ih =>
    rw [loopStateAt, ih]
    by_cases hk : k % 2 = 0
    · have h1 : (k + 1) % 2 = 1 := by omega
      have h2 : (k + 1) / 2 = k / 2 := by omega
      simp [hk, h1, h2, loopStep]
    · have hk1 : k % 2 = 1 := by omega
      have h1 : (k + 1) % 2 = 0 := by omega
      have h2 : (k + 1) / 2 = k / 2 + 1 := by omega
      simp [hk1, h1, h2, loopStep]

/-- C7: the polling loop runs forever and is fully sequential: its trace is
total, the event at every even position 2n is the single complete
invocation of make_decision for cycle n, the event right after it is the
fixed 60-second sleep, and cycle n is invoked at no other position — so the
engine runs exactly once per interval and two invocations never overlap. -/
theorem polling_loop_trace :
    (∀ n : Nat, aave_crypto_bot_event (2 * n) = .invoke n) ∧
    (∀ n : Nat, aave_crypto_bot_event (2 * n + 1) = .sleep 60) ∧
    (∀ n k : Nat, aave_crypto_bot_event k = .invoke n → k = 2 * n) := by
  refine ⟨fun n => ?_, fun n => ?_, fun n k h => ?_⟩
  · rw [aave_crypto_bot_event, loopStateAt_char]
    have h1 : 2 * n % 2 = 0 := by omega
    have h2 : 2 * n / 2 = n := by omega
    simp [h1, h2, loopStep]
  · rw [aave_crypto_bot_event, loopStateAt_char]
    have h1 : (2 * n + 1) % 2 = 1 := by omega
    simp [h1, loopStep]
  · rw [aave_crypto_bot_event, loopStateAt_char] at h
    by_cases hk : k % 2 = 0
    · simp [hk, loopStep] at h
      omega
    · simp [hk, loopStep] at h

/-- Witness for C7 at position 4 of the trace: cycle 2 runs there and only
there, followed by the 60-second sleep. -/
theorem polling_loop_trace_witness :
    aave_crypto_bot_event 4 = .invoke 2 ∧
    aave_crypto_bot_event 5 = .sleep 60 ∧ 4 = 2 * 2 :=
  ⟨polling_loop_trace.1 2, polling_loop_trace.2.1 2,
    polling_loop_trace.2.2 2 4 rfl⟩
